import Mathlib

/-!
Verification of the moxie-ai plugin/orchestration core against its
specification.  The Rust source (src/plugins/manifest.rs, loader.rs,
src/core/chat.rs, src/plugins/filesystem/mod.rs) is shallowly embedded:
pure functions become Lean functions, `&mut self` methods become explicit
state passing, fallible code returns `Except`.  JSON values
(serde_json::Value) are modelled by an inductive `Json`; its numbers are
restricted to integer literals, which covers every input considered here.
-/

namespace Moxie

/-- Model of serde_json::Value.  Objects are association lists in insertion
order (serde's map is ordered; only key lookup matters for the verified
code).  Numbers are modelled as integers; fractional and exponent literals
are outside the modelled fragment. -/
inductive Json where
  | null
  | bool (b : Bool)
  | num (n : Int)
  | str (s : String)
  | arr (elems : List Json)
  | obj (fields : List (String × Json))

/-- Model of Value::get on objects: first binding of the key; None on
non-objects. -/
def Json.get : Json → String → Option Json
  | .obj fields, key => (fields.find? (fun f => f.1 == key)).map (fun f => f.2)
  | _, _ => none

/-- Model of Value::as_str. -/
def Json.asStr : Json → Option String
  | .str s => some s
  | _ => none

/-- Model of Value::is_object. -/
def Json.isObj : Json → Bool
  | .obj _ => true
  | _ => false

/-- Semantic version (src/plugins/manifest.rs, struct Version).  The u32
fields are modelled as Nat; no arithmetic is performed on them. -/
structure Version where
  major : Nat
  minor : Nat
  patch : Nat
deriving DecidableEq, Repr

/-- Version::is_compatible_with (manifest.rs lines 27-38). -/
def Version.is_compatible_with (self required : Version) : Bool :=
  if self.major ≠ required.major then false
  else if self.minor < required.minor then false
  else if self.minor = required.minor ∧ self.patch < required.patch then false
  else true

/-- Display for Version: "major.minor.patch". -/
def Version.toDisplay (v : Version) : String :=
  toString v.major ++ "." ++ toString v.minor ++ "." ++ toString v.patch

/-- Fragment of Rust char::is_alphanumeric (Unicode Alphabetic or Numeric).
Exact for code points U+0000..U+00FF (ASCII plus the Latin-1 supplement:
ª µ º ² ³ ¹ ¼ ½ ¾ and the Latin-1 letters À-Ö, Ø-ö, ø-ÿ).  Code points
above U+00FF are outside the modelled fragment and map to false; theorems
quantifying over ids therefore carry a Latin-1 hypothesis. -/
def rustIsAlphanumeric (c : Char) : Bool :=
  let n := c.toNat
  decide ((0x30 ≤ n ∧ n ≤ 0x39) ∨ (0x41 ≤ n ∧ n ≤ 0x5A) ∨ (0x61 ≤ n ∧ n ≤ 0x7A)
    ∨ n = 0xAA ∨ n = 0xB5 ∨ n = 0xBA ∨ n = 0xB2 ∨ n = 0xB3 ∨ n = 0xB9
    ∨ (0xBC ≤ n ∧ n ≤ 0xBE) ∨ (0xC0 ≤ n ∧ n ≤ 0xD6) ∨ (0xD8 ≤ n ∧ n ≤ 0xF6)
    ∨ (0xF8 ≤ n ∧ n ≤ 0xFF))

/-- Plugin manifest (manifest.rs, struct PluginManifest).  Metadata fields
never consulted by the verified operations (long_description, email,
homepage, license, platform, config_schema, icon, category, keywords) are
omitted.  The Rust dependencies HashMap is modelled as an association
list; its iteration order is arbitrary in Rust and is the list order
here. -/
structure PluginManifest where
  id : String
  name : String
  version : Version
  description : String
  author : String
  dependencies : List (String × Version)
  requires_confirmation : Bool
deriving Repr

/-- PluginManifest::validate (manifest.rs lines 259-274). -/
def PluginManifest.validate (m : PluginManifest) : Except String Unit :=
  if m.id.isEmpty then .error "Plugin ID cannot be empty"
  else if m.name.isEmpty then .error "Plugin name cannot be empty"
  else if m.description.isEmpty then .error "Plugin description cannot be empty"
  else if !(m.id.data.all (fun c =>
      rustIsAlphanumeric c || c == '.' || c == '-' || c == '_')) then
    .error "Plugin ID contains invalid characters"
  else .ok ()

/-! ### String utilities (models of Rust `str` methods, over `List Char`) -/

/-- Fragment of Rust char::is_whitespace (Unicode White_Space), exact for
code points U+0000..U+00FF; higher code points are outside the modelled
fragment. -/
def rustIsWhitespace (c : Char) : Bool :=
  let n := c.toNat
  decide ((0x09 ≤ n ∧ n ≤ 0x0D) ∨ n = 0x20 ∨ n = 0x85 ∨ n = 0xA0)

/-- Model of str::trim: strip leading and trailing whitespace. -/
def rustTrim (s : List Char) : List Char :=
  ((s.dropWhile rustIsWhitespace).reverse.dropWhile rustIsWhitespace).reverse

/-- Index of the first occurrence of `pat` in `s` (model of str::find with a
string pattern; indices are in characters, which agrees with Rust's byte
indices at every occurrence boundary used here). -/
def findSub (pat : List Char) : List Char → Option Nat
  | [] => if pat.isEmpty then some 0 else none
  | c :: rest =>
    if pat.isPrefixOf (c :: rest) then some 0
    else (findSub pat rest).map (fun i => i + 1)

/-- Worker for `splitOnSub`: scan `s`, splitting at each leftmost
non-overlapping occurrence of `sep` (model of str::split with a non-empty
string pattern).  The Nat fuel makes the recursion structural; every scan
step consumes at least one character, so the fuel supplied by `splitOnSub`
never runs out and the fallback branch is unreachable. -/
def splitOnSubAux (sep : List Char) : Nat → List Char → List Char →
    List (List Char)
  | _, [], acc => [acc.reverse]
  | 0, s, acc => [acc.reverse ++ s]
  | fuel + 1, c :: rest, acc =>
    if sep.isPrefixOf (c :: rest) ∧ sep ≠ [] then
      acc.reverse :: splitOnSubAux sep fuel (rest.drop (sep.length - 1)) []
    else
      splitOnSubAux sep fuel rest (c :: acc)

/-- Model of str::split on a string pattern. -/
def splitOnSub (sep s : List Char) : List (List Char) :=
  splitOnSubAux sep (s.length + 1) s []

/-- True iff `needle` occurs in `hay` (model of str::contains). -/
def containsStr (hay needle : String) : Bool :=
  (findSub needle.data hay.data).isSome

/-! ### JSON parser (model of serde_json::from_str, restricted to the
fragment used by the repository: no fractional/exponent number literals and
no \u string escapes). -/

/-- JSON insignificant whitespace (exactly serde's: space, tab, LF, CR). -/
def isJsonWs (c : Char) : Bool :=
  c == ' ' || c == '\t' || c == '\n' || c == '\r'

/-- Skip JSON whitespace. -/
def skipWs : List Char → List Char
  | [] => []
  | c :: rest => if isJsonWs c then skipWs rest else c :: rest

/-- Resolve a JSON string escape character. -/
def escChar : Char → Option Char
  | '"' => some '"'
  | '\\' => some '\\'
  | '/' => some '/'
  | 'b' => some '\x08'
  | 'f' => some '\x0c'
  | 'n' => some '\n'
  | 'r' => some '\r'
  | 't' => some '\t'
  | _ => none

/-- Parse the body of a JSON string after the opening quote; control
characters must be escaped, as in serde. -/
def parseStringBody : List Char → List Char → Option (String × List Char)
  | acc, '"' :: rest => some (String.mk acc.reverse, rest)
  | acc, '\\' :: e :: rest =>
    match escChar e with
    | some c => parseStringBody (c :: acc) rest
    | none => none
  | acc, c :: rest =>
    if c == '\\' || c.toNat < 0x20 then none
    else parseStringBody (c :: acc) rest
  | _, [] => none

/-- Parse a JSON integer literal (optional minus, one or more digits; a
following '.', 'e' or 'E' is outside the modelled fragment). -/
def parseNumber (s : List Char) : Option (Json × List Char) :=
  let step := fun (p : Bool × List Char) =>
    match p with
    | (neg, s1) =>
      let digits := s1.takeWhile Char.isDigit
      let rest := s1.dropWhile Char.isDigit
      if digits.isEmpty then none
      else
        match rest with
        | '.' :: _ => none
        | 'e' :: _ => none
        | 'E' :: _ => none
        | _ =>
          let n : Nat := digits.foldl (fun a c => a * 10 + (c.toNat - 0x30)) 0
          some (Json.num (if neg then -(n : Int) else (n : Int)), rest)
  match s with
  | '-' :: rest => step (true, rest)
  | _ => step (false, s)

mutual

/-- Parse one JSON value (fuel-indexed; `jsonParse` supplies enough fuel
for any input). -/
def parseValue : Nat → List Char → Option (Json × List Char)
  | 0, _ => none
  | fuel + 1, s =>
    match skipWs s with
    | [] => none
    | c :: rest =>
      if c == '"' then
        (parseStringBody [] rest).map (fun p => (Json.str p.1, p.2))
      else if c == '\x7b' then
        match skipWs rest with
        | '\x7d' :: rest2 => some (Json.obj [], rest2)
        | rest2 => parseMembers fuel rest2 []
      else if c == '[' then
        match skipWs rest with
        | ']' :: rest2 => some (Json.arr [], rest2)
        | rest2 => parseElems fuel rest2 []
      else if c == 't' then
        match rest with
        | 'r' :: 'u' :: 'e' :: rest2 => some (Json.bool true, rest2)
        | _ => none
      else if c == 'f' then
        match rest with
        | 'a' :: 'l' :: 's' :: 'e' :: rest2 => some (Json.bool false, rest2)
        | _ => none
      else if c == 'n' then
        match rest with
        | 'u' :: 'l' :: 'l' :: rest2 => some (Json.null, rest2)
        | _ => none
      else if c == '-' || c.isDigit then parseNumber (c :: rest)
      else none

/-- Parse the members of a JSON object after the opening brace (non-empty
case). -/
def parseMembers : Nat → List Char → List (String × Json) →
    Option (Json × List Char)
  | 0, _, _ => none
  | fuel + 1, s, acc =>
    match skipWs s with
    | '"' :: rest =>
      match parseStringBody [] rest with
      | none => none
      | some (key, rest1) =>
        match skipWs rest1 with
        | ':' :: rest2 =>
          match parseValue fuel rest2 with
          | none => none
          | some (v, rest3) =>
            match skipWs rest3 with
            | ',' :: rest4 => parseMembers fuel rest4 (acc ++ [(key, v)])
            | '\x7d' :: rest4 => some (Json.obj (acc ++ [(key, v)]), rest4)
            | _ => none
        | _ => none
    | _ => none

/-- Parse the elements of a JSON array after the opening bracket (non-empty
case). -/
def parseElems : Nat → List Char → List Json → Option (Json × List Char)
  | 0, _, _ => none
  | fuel + 1, s, acc =>
    match parseValue fuel s with
    | none => none
    | some (v, rest) =>
      match skipWs rest with
      | ',' :: rest2 => parseElems fuel rest2 (acc ++ [v])
      | ']' :: rest2 => some (Json.arr (acc ++ [v]), rest2)
      | _ => none

end

/-- Model of serde_json::from_str::<Value>: parse one value and require
only whitespace to follow. -/
def jsonParse (s : List Char) : Option Json :=
  match parseValue (s.length + 1) s with
  | some (v, rest) => if (skipWs rest).isEmpty then some v else none
  | none => none

/-! ### Tool-call extraction (src/core/chat.rs, ChatEngine::extract_tool_calls) -/

/-- A tool call requested by the LLM (chat.rs, struct ToolCall).  The `id`
field, a fresh UUID in the source, is nondeterministic and never consulted
by the verified code, so it is omitted from the model. -/
structure ToolCall where
  name : String
  arguments : Json

/-- The opening delimiter the extractor splits on. -/
def toolCallFence : List Char := "```tool_call".data

/-- Body of the extraction loop (chat.rs lines 300-315): within one split
segment, find the closing fence, trim, parse as JSON, and accept when a
string "name" and any "arguments" key are present. -/
def segmentToolCall (block : List Char) : Option ToolCall :=
  match findSub "```".data block with
  | none => none
  | some i =>
    match jsonParse (rustTrim (block.take i)) with
    | none => none
    | some call =>
      match (call.get "name").bind Json.asStr, call.get "arguments" with
      | some name, some args => some ⟨name, args⟩
      | _, _ => none

/-- One step of the extraction loop: push the segment's ToolCall, if any. -/
def collectToolCall (acc : List ToolCall) (block : List Char) :
    List ToolCall :=
  match segmentToolCall block with
  | some c => acc ++ [c]
  | none => acc

/-- ChatEngine::extract_tool_calls (chat.rs lines 296-323): split on the
fence, accumulate one ToolCall per segment that yields one, and report
None when no segment does. -/
def extractToolCalls (content : String) : Option (List ToolCall) :=
  let calls := (splitOnSub toolCallFence content.data).foldl collectToolCall []
  if calls.isEmpty then none else some calls

/-- Spec-side segment acceptance, following the claim's words: the content
up to the closing fence must parse as a JSON object whose "name" is a
string and whose "arguments" is itself an object. -/
def specSegmentToolCall (block : List Char) : Option ToolCall :=
  match findSub "```".data block with
  | none => none
  | some i =>
    match jsonParse (rustTrim (block.take i)) with
    | none => none
    | some call =>
      match (call.get "name").bind Json.asStr, call.get "arguments" with
      | some name, some args =>
        if args.isObj then some ⟨name, args⟩ else none
      | _, _ => none

/-- Spec-side extraction, following the claim's words: only segments that
follow an opening fence count as blocks (the text before the first fence is
not a block), and a valid block needs an object-valued "arguments". -/
def specExtractToolCalls (content : String) : Option (List ToolCall) :=
  match splitOnSub toolCallFence content.data with
  | [] => none
  | _ :: blocks =>
    match blocks.filterMap specSegmentToolCall with
    | [] => none
    | calls => some calls

/-! ### Tool contract (src/plugins/mod.rs) -/

/-- PluginError (mod.rs lines 92-120).  The IoError and JsonError variants
carry the underlying error's display text. -/
inductive PluginError where
  | toolNotFound (s : String)
  | invalidParameters (s : String)
  | executionFailed (s : String)
  | pluginNotFound (s : String)
  | ioError (s : String)
  | jsonError (s : String)
  | pluginDisabled (s : String)
  | initFailed (s : String)
  | configError (s : String)
deriving DecidableEq, Repr

/-- Display of PluginError, per the thiserror error attributes. -/
def PluginError.message : PluginError → String
  | .toolNotFound s => "Tool not found: " ++ s
  | .invalidParameters s => "Invalid parameters: " ++ s
  | .executionFailed s => "Execution failed: " ++ s
  | .pluginNotFound s => "Plugin not found: " ++ s
  | .ioError s => "IO error: " ++ s
  | .jsonError s => "JSON error: " ++ s
  | .pluginDisabled s => "Plugin disabled: " ++ s
  | .initFailed s => "Initialization failed: " ++ s
  | .configError s => "Configuration error: " ++ s

/-- ToolDefinition (mod.rs lines 123-141). -/
structure ToolDefinition where
  name : String
  description : String
  parameters : Json
  requires_confirmation : Bool
  plugin_id : Option String

/-- ToolDefinition::new: default empty object schema. -/
def ToolDefinition.new (name description : String) : ToolDefinition :=
  { name := name
    description := description
    parameters := Json.obj
      [("type", Json.str "object"), ("properties", Json.obj []),
       ("required", Json.arr [])]
    requires_confirmation := false
    plugin_id := none }

/-- ToolResultMetadata (mod.rs lines 197-206). -/
structure ToolResultMetadata where
  duration_ms : Option Nat
  plugin_id : Option String

/-- ToolResult (mod.rs lines 179-194). -/
structure ToolResult where
  success : Bool
  output : Json
  error : Option String
  metadata : Option ToolResultMetadata

/-- ToolResult::success (renamed: `success` is taken by the field). -/
def ToolResult.mkSuccess (output : Json) : ToolResult :=
  { success := true, output := output, error := none, metadata := none }

/-- ToolResult::failure (renamed for symmetry with mkSuccess). -/
def ToolResult.mkFailure (error : String) : ToolResult :=
  { success := false, output := Json.null, error := some error,
    metadata := none }

/-- Serde serialization of ToolResultMetadata (fields in declaration order,
None fields skipped via skip_serializing_if). -/
def ToolResultMetadata.toJson (m : ToolResultMetadata) : Json :=
  Json.obj
    ((match m.duration_ms with
      | some d => [("duration_ms", Json.num d)]
      | none => []) ++
     (match m.plugin_id with
      | some p => [("plugin_id", Json.str p)]
      | none => []))

/-- Serde serialization of ToolResult (fields in declaration order, None
error/metadata skipped via skip_serializing_if). -/
def ToolResult.toJson (r : ToolResult) : Json :=
  Json.obj
    ([("success", Json.bool r.success), ("output", r.output)] ++
     (match r.error with
      | some e => [("error", Json.str e)]
      | none => []) ++
     (match r.metadata with
      | some m => [("metadata", m.toJson)]
      | none => []))

/-! ### JSON rendering (model of serde_json::to_string_pretty; the JSON
content is reproduced, the pretty-printer's whitespace is not). -/

/-- Escape one character for a JSON string literal (the serde escapes used
by the repository's data). -/
def renderChar (c : Char) : List Char :=
  if c == '"' then ['\\', '"']
  else if c == '\\' then ['\\', '\\']
  else if c == '\n' then ['\\', 'n']
  else if c == '\t' then ['\\', 't']
  else if c == '\r' then ['\\', 'r']
  else [c]

/-- Render a JSON string literal. -/
def renderString (s : String) : String :=
  "\"" ++ String.mk (s.data.foldr (fun c acc => renderChar c ++ acc) []) ++ "\""

mutual

/-- Render a JSON value compactly. -/
def Json.render : Json → String
  | .null => "null"
  | .bool b => cond b "true" "false"
  | .num n => toString n
  | .str s => renderString s
  | .arr xs => "[" ++ Json.renderElems xs ++ "]"
  | .obj fs => "\x7b" ++ Json.renderFields fs ++ "\x7d"

/-- Render array elements, comma separated. -/
def Json.renderElems : List Json → String
  | [] => ""
  | [x] => Json.render x
  | x :: xs => Json.render x ++ "," ++ Json.renderElems xs

/-- Render object fields, comma separated. -/
def Json.renderFields : List (String × Json) → String
  | [] => ""
  | [(k, v)] => renderString k ++ ":" ++ Json.render v
  | (k, v) :: fs => renderString k ++ ":" ++ Json.render v ++ "," ++
      Json.renderFields fs

end

/-! ### Capability interface and registry (src/plugins/traits.rs, loader.rs) -/

/-- PluginState (traits.rs lines 14-28). -/
inductive PluginState where
  | registered
  | initializing
  | active
  | disabled
  | error
  | shuttingDown
deriving DecidableEq, Repr

/-- Model of a `Box<dyn Plugin>` instance (traits.rs trait Plugin).  Hooks
are modelled by their outcome; the loader never replaces the instance, and
the instance-mutating capacity of `&mut self` hooks is not used by the
verified claims, so the instance is immutable here.  Defaults mirror the
trait's default no-op hook bodies. -/
structure Plugin where
  manifest : PluginManifest
  tools : List ToolDefinition
  execute : String → Json → Except PluginError ToolResult
  onInit : Except PluginError Unit := .ok ()
  onShutdown : Except PluginError Unit := .ok ()
  onEnable : Except PluginError Unit := .ok ()
  onDisable : Except PluginError Unit := .ok ()
  beforeExecute : String → Json → Except PluginError Unit := fun _ _ => .ok ()
  afterExecute : String → ToolResult → Except PluginError Unit :=
    fun _ _ => .ok ()

/-- Default Plugin::has_tool (traits.rs lines 153-155). -/
def Plugin.hasTool (p : Plugin) (tool : String) : Bool :=
  p.tools.any (fun t => t.name == tool)

/-- LoadedPlugin (loader.rs lines 16-28). -/
structure LoadedPlugin where
  plugin : Plugin
  state : PluginState
  config : Json
  load_order : Nat

/-- PluginLoader (loader.rs lines 31-43).  The plugins HashMap is modelled
as an association list in insertion order (HashMap iteration order is
arbitrary in Rust; the claims below either do not depend on it or note the
dependence).  The plugins_dir and context fields, which only affect
filesystem side effects, are omitted. -/
structure PluginLoader where
  plugins : List (String × LoadedPlugin)
  load_counter : Nat

/-- The empty loader (PluginLoader::new). -/
def PluginLoader.new : PluginLoader :=
  { plugins := [], load_counter := 0 }

/-- Look up a plugin entry by id (model of HashMap::get / contains_key). -/
def PluginLoader.findEntry (L : PluginLoader) (id : String) :
    Option (String × LoadedPlugin) :=
  L.plugins.find? (fun q => q.1 == id)

/-- Replace the entry with the given id (model of HashMap::get_mut). -/
def PluginLoader.updateEntry (L : PluginLoader) (id : String)
    (f : LoadedPlugin → LoadedPlugin) : PluginLoader :=
  { L with plugins := (L.plugins.map
      (fun q => if q.1 == id then (q.1, f q.2) else q)) }

/-- Dependency check of PluginLoader::register (loader.rs lines 85-100). -/
def PluginLoader.checkDeps (L : PluginLoader) (id : String) :
    List (String × Version) → Except PluginError Unit
  | [] => .ok ()
  | (depId, required) :: rest =>
    match L.findEntry depId with
    | some dep =>
      let depVersion := dep.2.plugin.manifest.version
      if depVersion.is_compatible_with required then L.checkDeps id rest
      else .error (.executionFailed
        ("Plugin '" ++ id ++ "' requires " ++ depId ++ " version " ++
         required.toDisplay ++ ", but " ++ depVersion.toDisplay ++
         " is loaded"))
    | none => .error (.executionFailed
        ("Plugin '" ++ id ++ "' requires '" ++ depId ++
         "' which is not loaded"))

/-- PluginLoader::register (loader.rs lines 69-117), in state-passing form:
the returned loader is the (possibly unchanged) registry after the call. -/
def PluginLoader.register (L : PluginLoader) (p : Plugin) :
    Except PluginError Unit × PluginLoader :=
  let manifest := p.manifest
  let id := manifest.id
  match manifest.validate with
  | .error e => (.error (.invalidParameters e), L)
  | .ok () =>
    if (L.findEntry id).isSome then
      (.error (.executionFailed
        ("Plugin '" ++ id ++ "' is already registered")), L)
    else
      match L.checkDeps id manifest.dependencies with
      | .error e => (.error e, L)
      | .ok () =>
        (.ok (),
         { plugins := L.plugins ++
             [(id, { plugin := p, state := .registered, config := Json.obj [],
                     load_order := L.load_counter + 1 })],
           load_counter := L.load_counter + 1 })

/-- PluginLoader::init_plugin (loader.rs lines 151-185).  The transient
Initializing state and the data-directory side effect are not observable in
the final state and are not modelled. -/
def PluginLoader.initPlugin (L : PluginLoader) (id : String) :
    Except PluginError Unit × PluginLoader :=
  match L.findEntry id with
  | none => (.error (.pluginNotFound id), L)
  | some entry =>
    if entry.2.state ≠ PluginState.registered then (.ok (), L)
    else
      match entry.2.plugin.onInit with
      | .error e =>
        (.error e, L.updateEntry id (fun lp => { lp with state := .error }))
      | .ok () =>
        (.ok (), L.updateEntry id (fun lp => { lp with state := .active }))

/-- PluginLoader::shutdown_plugin (loader.rs lines 208-228).  An
on_shutdown hook failure is logged and swallowed; the state always becomes
Registered. -/
def PluginLoader.shutdownPlugin (L : PluginLoader) (id : String) :
    Except PluginError Unit × PluginLoader :=
  match L.findEntry id with
  | none => (.error (.pluginNotFound id), L)
  | some entry =>
    if entry.2.state ≠ PluginState.active ∧
        entry.2.state ≠ PluginState.disabled then (.ok (), L)
    else
      (.ok (), L.updateEntry id (fun lp => { lp with state := .registered }))

/-- PluginLoader::enable_plugin (loader.rs lines 231-246).  The `?` on
on_enable returns its error before the state changes. -/
def PluginLoader.enablePlugin (L : PluginLoader) (id : String) :
    Except PluginError Unit × PluginLoader :=
  match L.findEntry id with
  | none => (.error (.pluginNotFound id), L)
  | some entry =>
    if entry.2.state ≠ PluginState.disabled then (.ok (), L)
    else
      match entry.2.plugin.onEnable with
      | .error e => (.error e, L)
      | .ok () =>
        (.ok (), L.updateEntry id (fun lp => { lp with state := .active }))

/-- PluginLoader::disable_plugin (loader.rs lines 249-264).  The `?` on
on_disable returns its error before the state changes. -/
def PluginLoader.disablePlugin (L : PluginLoader) (id : String) :
    Except PluginError Unit × PluginLoader :=
  match L.findEntry id with
  | none => (.error (.pluginNotFound id), L)
  | some entry =>
    if entry.2.state ≠ PluginState.active then (.ok (), L)
    else
      match entry.2.plugin.onDisable with
      | .error e => (.error e, L)
      | .ok () =>
        (.ok (), L.updateEntry id (fun lp => { lp with state := .disabled }))

/-- PluginLoader::all_tools (loader.rs lines 294-300). -/
def PluginLoader.allTools (L : PluginLoader) : List ToolDefinition :=
  ((L.plugins.filter (fun q => q.2.state == PluginState.active)).map
    (fun q => q.2.plugin.tools)).flatten

/-- PluginLoader::execute (loader.rs lines 312-341).  The
requires_confirmation manifest flag is logged only and does not gate
execution; the `?` on each hook propagates its error. -/
def PluginLoader.executeTool (L : PluginLoader) (tool : String)
    (params : Json) : Except PluginError ToolResult :=
  match L.plugins.find? (fun q =>
      q.2.state == PluginState.active && q.2.plugin.hasTool tool) with
  | none => .error (.toolNotFound tool)
  | some entry =>
    match entry.2.plugin.beforeExecute tool params with
    | .error e => .error e
    | .ok () =>
      match entry.2.plugin.execute tool params with
      | .error e => .error e
      | .ok result =>
        match entry.2.plugin.afterExecute tool result with
        | .error e => .error e
        | .ok () => .ok result

/-! ### Orchestration loop (src/core/chat.rs, ChatEngine::chat)

The external collaborators are parameters of the model: the language-model
provider is a function from the round-trip index to the response text (a
stub collaborator, as in the claims), tool dispatch is a function standing
for `self.plugins.execute`, and conversation memory is the list of
messages persisted by `save_message`. -/

/-- Message role (src/conversation/mod.rs). -/
inductive Role where
  | system
  | user
  | assistant
deriving DecidableEq, Repr

/-- Conversation message (src/conversation/mod.rs). -/
structure Message where
  role : Role
  content : String
deriving DecidableEq, Repr

/-- MAX_TOOL_ITERATIONS (chat.rs line 23). -/
def MAX_TOOL_ITERATIONS : Nat := 10

/-- Summary of a tool call for the response (chat.rs lines 85-89). -/
structure ToolCallSummary where
  name : String
  success : Bool
deriving DecidableEq, Repr

/-- ChatError (chat.rs lines 92-105).  Provider and memory failures are
not exercised by the stub collaborators of the claims. -/
inductive ChatError where
  | provider (s : String)
  | plugin (e : PluginError)
  | memory (s : String)
  | maxIterationsExceeded
deriving DecidableEq, Repr

/-- ChatResponse (chat.rs lines 71-82). -/
structure ChatResponse where
  message : String
  conversation_id : String
  tool_calls : List ToolCallSummary

/-- Body of the per-call dispatch (chat.rs lines 218-249): execute, convert
an error into a failed ToolResult, record the summary, and append the
synthetic assistant/system messages.  serde_json::to_string_pretty is
modelled by the compact renderer. -/
def dispatchToolCall (exec : String → Json → Except PluginError ToolResult)
    (st : List Message × List ToolCallSummary) (call : ToolCall) :
    List Message × List ToolCallSummary :=
  let toolResult :=
    match exec call.name call.arguments with
    | .ok r => r
    | .error e => ToolResult.mkFailure e.message
  (st.1 ++
    [{ role := Role.assistant,
       content := "Tool call: " ++ call.name ++ " with arguments: " ++
         call.arguments.render },
     { role := Role.system,
       content := "Tool result for " ++ call.name ++ ": " ++
         toolResult.toJson.render }],
   st.2 ++ [{ name := call.name, success := toolResult.success }])

/-- The tool-calling loop of ChatEngine::chat (chat.rs lines 202-267).
`fuel` is the number of iterations the bound still allows (starting at
MAX_TOOL_ITERATIONS; the Rust counter reaching MAX+1 is fuel reaching 0),
`callIdx` counts completed provider round-trips.  Returns the outcome
together with the total number of provider calls. -/
def chatGo (provider : Nat → String)
    (exec : String → Json → Except PluginError ToolResult) :
    Nat → Nat → List Message → List ToolCallSummary →
    Except ChatError (String × List ToolCallSummary) × Nat
  | 0, callIdx, _, _ => (.error .maxIterationsExceeded, callIdx)
  | fuel + 1, callIdx, messages, summaries =>
    let content := provider callIdx
    match extractToolCalls content with
    | some calls =>
      let st := calls.foldl (dispatchToolCall exec) (messages, summaries)
      chatGo provider exec fuel (callIdx + 1) st.1 st.2
    | none => (.ok (content, summaries), callIdx + 1)

/-- Observable outcome of one ChatEngine::chat turn: result, number of
provider round-trips, and the messages persisted to conversation memory. -/
structure ChatOutcome where
  result : Except ChatError ChatResponse
  providerCalls : Nat
  saved : List Message

/-- ChatEngine::chat (chat.rs lines 154-268) for an already-resolved
conversation id and system prompt: build the working message list, persist
the user message, run the loop, and persist the final assistant message
only on success. -/
def chat (provider : Nat → String)
    (exec : String → Json → Except PluginError ToolResult)
    (history : List Message) (systemPrompt userMessage conversationId :
    String) : ChatOutcome :=
  let messages := { role := Role.system, content := systemPrompt } ::
    history ++ [{ role := Role.user, content := userMessage }]
  let savedUser := [Message.mk Role.user userMessage]
  match chatGo provider exec MAX_TOOL_ITERATIONS 0 messages [] with
  | (.error e, n) => ⟨.error e, n, savedUser⟩
  | (.ok (content, summaries), n) =>
    ⟨.ok ⟨content, conversationId, summaries⟩, n,
     savedUser ++ [⟨Role.assistant, content⟩]⟩

/-! ### Filesystem capability (src/plugins/filesystem/mod.rs)

Paths are modelled as component lists, and the filesystem itself as an
environment of oracles for canonicalization, existence, metadata and
reads.  Writes performed by write_file are returned explicitly so that
"no filesystem write performed" is a statement about the model. -/

/-- A filesystem path as a list of components.  Path::display is modelled
by joining with '/'. -/
def renderPath (path : List String) : String :=
  String.intercalate "/" path

/-- Path::parent: the path minus its last component, None when there is no
component to strip. -/
def pathParent (path : List String) : Option (List String) :=
  match path with
  | [] => none
  | _ => some path.dropLast

/-- Filesystem state visible to the plugin: outcomes of canonicalize,
exists, metadata-size and read_to_string. -/
structure FsEnv where
  canonicalize : List String → Option (List String)
  pathExists : List String → Bool
  fileSize : List String → Option Nat
  readToString : List String → Option String

/-- FilesystemConfig (filesystem/mod.rs lines 35-47). -/
structure FilesystemConfig where
  allowed_paths : List (List String)
  allow_write : Bool
  max_file_size : Nat

/-- Root check of is_path_allowed: some allowed root canonicalizes and is a
component-prefix of the canonical path (Path::starts_with). -/
def checkRoots (cfg : FilesystemConfig) (env : FsEnv)
    (canonical : List String) : Bool :=
  cfg.allowed_paths.any (fun allowed =>
    match env.canonicalize allowed with
    | some ac => ac.isPrefixOf canonical
    | none => false)

/-- FilesystemPlugin::is_path_allowed (filesystem/mod.rs lines 95-124). -/
def isPathAllowed (cfg : FilesystemConfig) (env : FsEnv)
    (path : List String) : Bool :=
  if cfg.allowed_paths.isEmpty then false
  else
    match env.canonicalize path with
    | some canonical => checkRoots cfg env canonical
    | none =>
      match pathParent path with
      | some parent =>
        match env.canonicalize parent with
        | some canonical => checkRoots cfg env canonical
        | none => false
      | none => false

/-- FilesystemPlugin::read_file (filesystem/mod.rs lines 127-162).  An
fs::metadata or read_to_string failure propagates as PluginError::IoError
via the From conversion. -/
def fsReadFile (cfg : FilesystemConfig) (env : FsEnv) (path : List String) :
    Except PluginError ToolResult :=
  if !(isPathAllowed cfg env path) then
    .ok (ToolResult.mkFailure ("Access denied: path '" ++ renderPath path ++
      "' is not in allowed paths"))
  else if !(env.pathExists path) then
    .ok (ToolResult.mkFailure ("File not found: " ++ renderPath path))
  else
    match env.fileSize path with
    | none => .error (.ioError "metadata")
    | some size =>
      if size > cfg.max_file_size then
        .ok (ToolResult.mkFailure ("File too large: " ++ toString size ++
          " bytes (max: " ++ toString cfg.max_file_size ++ " bytes)"))
      else
        match env.readToString path with
        | none => .error (.ioError "read")
        | some content =>
          .ok (ToolResult.mkSuccess (Json.obj
            [("path", Json.str (renderPath path)),
             ("content", Json.str content),
             ("size", Json.num size)]))

/-- A filesystem mutation performed by write_file. -/
inductive FsWrite where
  | createDirAll (p : List String)
  | fileWrite (p : List String) (content : String)
deriving DecidableEq, Repr

/-- FilesystemPlugin::write_file (filesystem/mod.rs lines 165-194),
returning the result together with the filesystem mutations performed. -/
def fsWriteFile (cfg : FilesystemConfig) (env : FsEnv) (path : List String)
    (content : String) : Except PluginError ToolResult × List FsWrite :=
  if !cfg.allow_write then
    (.ok (ToolResult.mkFailure
      "Write operations are disabled for this plugin"), [])
  else if !(isPathAllowed cfg env path) then
    (.ok (ToolResult.mkFailure ("Access denied: path '" ++ renderPath path ++
      "' is not in allowed paths")), [])
  else
    let dirWrites :=
      match pathParent path with
      | some parent =>
        if !(env.pathExists parent) then [FsWrite.createDirAll parent] else []
      | none => []
    ((.ok (ToolResult.mkSuccess (Json.obj
        [("path", Json.str (renderPath path)),
         ("bytes_written", Json.num content.length)]))),
     dirWrites ++ [FsWrite.fileWrite path content])

/-! ### Concrete instances used by witnesses and counterexamples -/

/-- The claim's id charset [A-Za-z0-9._-], by code point. -/
def specIdChar (c : Char) : Bool :=
  let n := c.toNat
  decide ((0x41 ≤ n ∧ n ≤ 0x5A) ∨ (0x61 ≤ n ∧ n ≤ 0x7A) ∨
    (0x30 ≤ n ∧ n ≤ 0x39) ∨ n = 0x2E ∨ n = 0x2D ∨ n = 0x5F)

/-- A manifest whose id is the single Unicode letter é (U+00E9). -/
def latinIdManifest : PluginManifest :=
  { id := "é", name := "Latin", version := ⟨0, 1, 0⟩,
    description := "Unicode id", author := "", dependencies := [],
    requires_confirmation := false }

/-- A manifest with the spec's invalid id "bad id!". -/
def badIdManifest : PluginManifest :=
  { id := "bad id!", name := "Bad", version := ⟨0, 1, 0⟩,
    description := "Invalid id", author := "", dependencies := [],
    requires_confirmation := false }

/-- A well-formed ASCII manifest mirroring the filesystem plugin's. -/
def fsLikeManifest : PluginManifest :=
  { id := "moxie.filesystem", name := "Filesystem", version := ⟨1, 0, 0⟩,
    description := "Read, write, and list files on the local filesystem",
    author := "Moxie AI", dependencies := [], requires_confirmation := false }

/-- A response with one well-formed tool-call block, in the format the
system prompt instructs the model to use. -/
def goodToolCallText : String :=
  "I will read it.\n```tool_call\n\x7b\n  \"name\": \"read_file\",\n  \"arguments\": \x7b\"path\": \"/tmp/t.txt\"\x7d\n\x7d\n```"

/-- The ToolCall encoded by goodToolCallText. -/
def goodToolCall : ToolCall :=
  ⟨"read_file", Json.obj [("path", Json.str "/tmp/t.txt")]⟩

/-- A tool-call block whose content is not JSON. -/
def malformedBlockText : String := "```tool_call\nnot json\n```"

/-- A tool-call block whose "arguments" value is the number 3, not an
object. -/
def nonObjectArgsText : String :=
  "```tool_call\n\x7b\"name\": \"x\", \"arguments\": 3\x7d\n```"

/-- A stub provider that answers every round-trip with the same valid
tool-call block. -/
def constToolCallProvider : Nat → String := fun _ => goodToolCallText

/-- A dispatch stub whose every call succeeds. -/
def okExec : String → Json → Except PluginError ToolResult :=
  fun _ _ => .ok (ToolResult.mkSuccess (Json.str "done"))

/-- A concrete capability with an ASCII manifest, one tool, no
dependencies and default (no-op) hooks. -/
def testPlugin : Plugin :=
  { manifest := fsLikeManifest,
    tools := [ToolDefinition.new "read_file" "Read the contents of a file"],
    execute := fun _ _ => .ok (ToolResult.mkSuccess (Json.str "ok")) }

/-- The spec-side characterization of the visible tool catalog: each entry
contributes its tools exactly when its state is Active. -/
def allToolsList (ps : List (String × LoadedPlugin)) : List ToolDefinition :=
  ps.foldr (fun q acc =>
    (if q.2.state = PluginState.active then q.2.plugin.tools else []) ++ acc)
    []

/-- The entry a successful registration inserts. -/
def regEntry (L : PluginLoader) (p : Plugin) : String × LoadedPlugin :=
  (p.manifest.id,
   { plugin := p, state := .registered, config := Json.obj [],
     load_order := L.load_counter + 1 })

/-- The loader a successful registration produces. -/
def regResult (L : PluginLoader) (p : Plugin) : PluginLoader :=
  { plugins := L.plugins ++ [regEntry L p],
    load_counter := L.load_counter + 1 }

/-- A capability whose after_execute hook fails. -/
def afterFailPlugin : Plugin :=
  { manifest := fsLikeManifest,
    tools := [ToolDefinition.new "t" "test tool"],
    execute := fun _ _ => .ok (ToolResult.mkSuccess (Json.str "done")),
    afterExecute := fun _ _ => .error (.executionFailed "after hook failed") }

/-- A registry holding afterFailPlugin in the Active state. -/
def afterFailLoader : PluginLoader :=
  ⟨[("moxie.filesystem",
     ⟨afterFailPlugin, .active, Json.obj [], 1⟩)], 1⟩

/-- A registry holding testPlugin (whose hooks all succeed) Active. -/
def hookOkLoader : PluginLoader :=
  ⟨[("moxie.filesystem", ⟨testPlugin, .active, Json.obj [], 1⟩)], 1⟩

/-- A filesystem environment where nothing canonicalizes or exists. -/
def emptyFsEnv : FsEnv :=
  { canonicalize := fun _ => none,
    pathExists := fun _ => false,
    fileSize := fun _ => none,
    readToString := fun _ => none }

/-- A filesystem configuration with an empty allow-list and writes
disabled. -/
def lockedFsConfig : FilesystemConfig :=
  { allowed_paths := [], allow_write := false,
    max_file_size := 10485760 }

/-- A dispatch stub that fails every call with ToolNotFound. -/
def notFoundExec : String → Json → Except PluginError ToolResult :=
  fun t _ => .error (.toolNotFound t)

/-- A two-round stub provider: first a valid tool-call block, then a plain
answer. -/
def twoRoundProvider : Nat → String :=
  fun n => if n = 0 then goodToolCallText else "All done."

/-! ## Theorems -/

/-- Claim C1: Version.is_compatible_with holds iff the majors agree and the
(minor, patch) pair is at least the required one, with the spec's concrete
instances for (1,2,3), (1,2,0), (1,3,0), (2,0,0). -/
theorem C1_version_compatibility :
    (∀ a b : Version, a.is_compatible_with b = true ↔
      a.major = b.major ∧
        (b.minor < a.minor ∨ (a.minor = b.minor ∧ b.patch ≤ a.patch))) ∧
    Version.is_compatible_with ⟨1, 2, 3⟩ ⟨1, 2, 0⟩ = true ∧
    Version.is_compatible_with ⟨1, 2, 3⟩ ⟨1, 2, 3⟩ = true ∧
    Version.is_compatible_with ⟨1, 2, 3⟩ ⟨1, 3, 0⟩ = false ∧
    Version.is_compatible_with ⟨1, 2, 3⟩ ⟨2, 0, 0⟩ = false ∧
    Version.is_compatible_with ⟨1, 2, 0⟩ ⟨1, 2, 3⟩ = false := by
  refine ⟨?_, by decide, by decide, by decide, by decide, by decide⟩
  intro a b
  unfold Version.is_compatible_with
  split_ifs with h1 h2 h3 <;> simp_all <;> omega

/-- Characters are equal iff their code points are. -/
theorem char_eq_iff_toNat {c d : Char} : c = d ↔ c.toNat = d.toNat := by
  constructor
  · intro h; rw [h]
  · intro h; exact Char.eq_of_val_eq (UInt32.toNat.inj h)

/-- On ASCII characters, the validator's per-character test agrees with the
claim charset [A-Za-z0-9._-]. -/
theorem idCharOk_iff_of_ascii (c : Char) (h : c.toNat < 0x80) :
    ((rustIsAlphanumeric c || c == '.' || c == '-' || c == '_') = true ↔
      specIdChar c = true) := by
  have h46 : ('.' : Char).toNat = 0x2E := by decide
  have h45 : ('-' : Char).toNat = 0x2D := by decide
  have h95 : ('_' : Char).toNat = 0x5F := by decide
  simp only [Bool.or_eq_true, beq_iff_eq, char_eq_iff_toNat, h46, h45, h95,
    rustIsAlphanumeric, specIdChar, decide_eq_true_eq]
  omega

/-- Claim C6, counterexample: the manifest with id "é" (a Unicode
alphanumeric outside [A-Za-z0-9._-]) passes validation, although the claim
says no id containing a character outside that set is accepted. -/
theorem C6_counterexample :
    latinIdManifest.validate = .ok () ∧
    'é' ∈ latinIdManifest.id.data ∧ specIdChar 'é' = false := by
  exact ⟨rfl, by decide, by decide⟩

/-- Claim C6, amended: Rust's char::is_alphanumeric is Unicode-wide, so
validation succeeds iff id, name, description are non-empty and every id
character is Unicode-alphanumeric or one of . - _ ; restricted to ASCII
ids this is exactly the claimed charset [A-Za-z0-9._-], and the id
"bad id!" is still rejected. -/
theorem C6_manifest_validation :
    (∀ m : PluginManifest, (∀ c ∈ m.id.data, c.toNat < 0x80) →
      (m.validate = .ok () ↔
        m.id ≠ "" ∧ m.name ≠ "" ∧ m.description ≠ "" ∧
        ∀ c ∈ m.id.data, specIdChar c = true)) ∧
    badIdManifest.validate = .error "Plugin ID contains invalid characters" := by
  constructor
  · intro m hascii
    unfold PluginManifest.validate
    split_ifs with h1 h2 h3 h4
    · simp only [String.isEmpty_iff] at h1
      simp [h1]
    · simp only [String.isEmpty_iff] at h2
      simp [h2]
    · simp only [String.isEmpty_iff] at h3
      simp [h3]
    · simp only [Bool.not_eq_true', List.all_eq_false] at h4
      obtain ⟨c, hc, hfail⟩ := h4
      constructor
      · intro h; simp at h
      · rintro ⟨-, -, -, hall⟩
        have htrue := (idCharOk_iff_of_ascii c (hascii c hc)).mpr (hall c hc)
        exact absurd htrue hfail
    · have h4' : m.id.data.all (fun c =>
          rustIsAlphanumeric c || c == '.' || c == '-' || c == '_') = true := by
        rcases Bool.eq_false_or_eq_true (m.id.data.all (fun c =>
          rustIsAlphanumeric c || c == '.' || c == '-' || c == '_')) with hx | hx
        · exact hx
        · exact absurd (by rw [hx]; rfl) h4
      rw [List.all_eq_true] at h4'
      have hid : m.id ≠ "" := by
        intro h; rw [h] at h1; exact h1 rfl
      have hname : m.name ≠ "" := by
        intro h; rw [h] at h2; exact h2 rfl
      have hdesc : m.description ≠ "" := by
        intro h; rw [h] at h3; exact h3 rfl
      simp only [String.isEmpty_iff] at h1 h2 h3
      constructor
      · intro _
        refine ⟨hid, hname, hdesc, fun c hc => ?_⟩
        exact (idCharOk_iff_of_ascii c (hascii c hc)).mp (h4' c hc)
      · intro _; rfl
  · rfl

/-- Witness for C6_manifest_validation at a concrete ASCII manifest. -/
theorem C6_manifest_validation_witness :
    (∀ c ∈ fsLikeManifest.id.data, c.toNat < 0x80) ∧
    (fsLikeManifest.validate = .ok () ↔
      fsLikeManifest.id ≠ "" ∧ fsLikeManifest.name ≠ "" ∧
      fsLikeManifest.description ≠ "" ∧
      ∀ c ∈ fsLikeManifest.id.data, specIdChar c = true) :=
  ⟨by decide, C6_manifest_validation.1 fsLikeManifest (by decide)⟩

/-- Accumulating valid segments with the extraction step is filtering
them. -/
theorem foldl_collect_filterMap :
    ∀ (l : List (List Char)) (acc : List ToolCall),
      l.foldl collectToolCall acc = acc ++ l.filterMap segmentToolCall := by
  intro l
  induction l with
  | nil => intro acc; simp
  | cons x xs ih =>
    intro acc
    cases hx : segmentToolCall x <;>
      simp [List.filterMap_cons, hx, ih, collectToolCall]

/-- Claim C2, counterexample: a block whose "arguments" is the number 3
(not an object) still yields a ToolCall, whereas the claim says such a
block is skipped and extraction reports no tool calls (as the spec-side
extractor does). -/
theorem C2_counterexample :
    extractToolCalls nonObjectArgsText = some [⟨"x", Json.num 3⟩] ∧
    Json.isObj (Json.num 3) = false ∧
    specExtractToolCalls nonObjectArgsText = none :=
  ⟨rfl, rfl, rfl⟩

/-- Claim C2, amended: extraction splits the response on the literal
opening fence and yields exactly one ToolCall per segment — including the
text before the first fence — that contains a closing fence and whose
trimmed content parses as JSON with a string "name" and an "arguments" key
of any type; all other segments are skipped, extraction never errors, and
it reports none exactly when no segment qualifies.  The spec's concrete
instances (no block; one well-formed block; one well-formed plus one
malformed block) behave as claimed. -/
theorem C2_tool_call_extraction :
    (∀ content : String,
      extractToolCalls content =
        match (splitOnSub toolCallFence content.data).filterMap
            segmentToolCall with
        | [] => none
        | calls => some calls) ∧
    extractToolCalls "Just a regular response with no tool calls." = none ∧
    extractToolCalls goodToolCallText = some [goodToolCall] ∧
    extractToolCalls (goodToolCallText ++ "\n" ++ malformedBlockText) =
      some [goodToolCall] := by
  refine ⟨?_, rfl, rfl, rfl⟩
  intro content
  simp only [extractToolCalls]
  rw [foldl_collect_filterMap]
  simp only [List.nil_append]
  cases h : (splitOnSub toolCallFence content.data).filterMap segmentToolCall
  · simp
  · simp

/-- In a turn whose every model response requests tool calls, the loop
consumes all its fuel and errors, having called the provider once per fuel
unit. -/
theorem chatGo_all_toolcalls (provider : Nat → String)
    (exec : String → Json → Except PluginError ToolResult)
    (hall : ∀ n, (extractToolCalls (provider n)).isSome = true) :
    ∀ (fuel callIdx : Nat) (messages : List Message)
      (summaries : List ToolCallSummary),
      chatGo provider exec fuel callIdx messages summaries =
        (.error .maxIterationsExceeded, callIdx + fuel) := by
  intro fuel
  induction fuel with
  | zero => intro callIdx messages summaries; simp [chatGo]
  | succ n ih =>
    intro callIdx messages summaries
    obtain ⟨calls, hcalls⟩ := Option.isSome_iff_exists.mp (hall callIdx)
    simp only [chatGo, hcalls]
    rw [ih]
    simp only [Prod.mk.injEq, true_and]
    omega

/-- Claim C3: with a collaborator that returns a valid tool-call block on
every call, the turn fails with MaxIterationsExceeded after exactly 10
provider round-trips, and only the initiating user message is persisted. -/
theorem C3_max_iterations_exceeded (provider : Nat → String)
    (exec : String → Json → Except PluginError ToolResult)
    (history : List Message)
    (systemPrompt userMessage conversationId : String)
    (hall : ∀ n, (extractToolCalls (provider n)).isSome = true) :
    (chat provider exec history systemPrompt userMessage
        conversationId).result = .error .maxIterationsExceeded ∧
    (chat provider exec history systemPrompt userMessage
        conversationId).providerCalls = 10 ∧
    (chat provider exec history systemPrompt userMessage
        conversationId).saved = [⟨Role.user, userMessage⟩] := by
  simp only [chat]
  rw [chatGo_all_toolcalls provider exec hall]
  exact ⟨rfl, rfl, rfl⟩

/-- Witness for C3_max_iterations_exceeded with a concrete always-tool-call
stub provider. -/
theorem C3_max_iterations_exceeded_witness :
    (∀ n, (extractToolCalls (constToolCallProvider n)).isSome = true) ∧
    ((chat constToolCallProvider okExec [] "sys" "hello" "conv").result =
        .error .maxIterationsExceeded ∧
     (chat constToolCallProvider okExec [] "sys" "hello"
        "conv").providerCalls = 10 ∧
     (chat constToolCallProvider okExec [] "sys" "hello" "conv").saved =
        [⟨Role.user, "hello"⟩]) :=
  ⟨fun _ => rfl,
   C3_max_iterations_exceeded constToolCallProvider okExec [] "sys" "hello"
     "conv" (fun _ => rfl)⟩

/-- If some declared dependency is unregistered or version-incompatible,
the dependency check fails. -/
theorem checkDeps_error (L : PluginLoader) (id : String) :
    ∀ deps : List (String × Version),
      (∃ d ∈ deps, L.findEntry d.1 = none ∨
        ∃ entry, L.findEntry d.1 = some entry ∧
          entry.2.plugin.manifest.version.is_compatible_with d.2 = false) →
      ∃ e, L.checkDeps id deps = .error e := by
  intro deps
  induction deps with
  | nil =>
    rintro ⟨d, hd, -⟩
    cases hd
  | cons x xs ih =>
    obtain ⟨xid, xver⟩ := x
    rintro ⟨d, hd, hbad⟩
    rcases List.mem_cons.mp hd with rfl | hmem
    · rcases hbad with hnone | ⟨entry, hentry, hincomp⟩
      · exact ⟨.executionFailed ("Plugin '" ++ id ++ "' requires '" ++ xid ++
          "' which is not loaded"), by simp [PluginLoader.checkDeps, hnone]⟩
      · exact ⟨.executionFailed ("Plugin '" ++ id ++ "' requires " ++ xid ++
          " version " ++ xver.toDisplay ++ ", but " ++
          entry.2.plugin.manifest.version.toDisplay ++ " is loaded"),
          by simp [PluginLoader.checkDeps, hentry, hincomp]⟩
    · cases hfe : L.findEntry xid with
      | none => exact ⟨.executionFailed ("Plugin '" ++ id ++ "' requires '" ++
          xid ++ "' which is not loaded"),
          by simp [PluginLoader.checkDeps, hfe]⟩
      | some entry =>
        cases hcomp :
            entry.2.plugin.manifest.version.is_compatible_with xver with
        | false => exact ⟨.executionFailed ("Plugin '" ++ id ++
            "' requires " ++ xid ++ " version " ++ xver.toDisplay ++
            ", but " ++ entry.2.plugin.manifest.version.toDisplay ++
            " is loaded"), by simp [PluginLoader.checkDeps, hfe, hcomp]⟩
        | true =>
          obtain ⟨e, he⟩ := ih ⟨d, hmem, hbad⟩
          exact ⟨e, by simp [PluginLoader.checkDeps, hfe, hcomp, he]⟩

/-- If every declared dependency is registered and compatible, the
dependency check succeeds. -/
theorem checkDeps_ok (L : PluginLoader) (id : String) :
    ∀ deps : List (String × Version),
      (∀ d ∈ deps, ∃ entry, L.findEntry d.1 = some entry ∧
        entry.2.plugin.manifest.version.is_compatible_with d.2 = true) →
      L.checkDeps id deps = .ok () := by
  intro deps
  induction deps with
  | nil => intro _; rfl
  | cons x xs ih =>
    obtain ⟨xid, xver⟩ := x
    intro hall
    obtain ⟨entry, hfe, hcomp⟩ := hall (xid, xver) (List.mem_cons_self _ _)
    have hrest := ih (fun d hd => hall d (List.mem_cons_of_mem _ hd))
    simp [PluginLoader.checkDeps, hfe, hcomp, hrest]

/-- A registration whose checks all pass inserts exactly the new entry and
consumes the next load-order index. -/
theorem register_success (L : PluginLoader) (p : Plugin)
    (hval : p.manifest.validate = .ok ())
    (hfresh : L.findEntry p.manifest.id = none)
    (hdeps : ∀ d ∈ p.manifest.dependencies,
      ∃ entry, L.findEntry d.1 = some entry ∧
        entry.2.plugin.manifest.version.is_compatible_with d.2 = true) :
    L.register p = (.ok (), regResult L p) := by
  have hck := checkDeps_ok L p.manifest.id p.manifest.dependencies hdeps
  simp [PluginLoader.register, hval, hfresh, hck, regResult, regEntry]

/-- Claim C4: registration rejects, leaving the registry untouched (no
entry inserted, no load-order index consumed), whenever the manifest fails
validation, the id is a duplicate, or any declared dependency is missing
or incompatible; on success it inserts the plugin in state Registered with
the next load-order index. -/
theorem C4_registration_protocol (L : PluginLoader) (p : Plugin) :
    (∀ e, p.manifest.validate = .error e →
      L.register p = (.error (.invalidParameters e), L)) ∧
    (p.manifest.validate = .ok () →
      ∀ entry, L.findEntry p.manifest.id = some entry →
      L.register p = (.error (.executionFailed
        ("Plugin '" ++ p.manifest.id ++ "' is already registered")), L)) ∧
    (p.manifest.validate = .ok () → L.findEntry p.manifest.id = none →
      (∃ d ∈ p.manifest.dependencies, L.findEntry d.1 = none ∨
        ∃ entry, L.findEntry d.1 = some entry ∧
          entry.2.plugin.manifest.version.is_compatible_with d.2 = false) →
      ∃ e, L.register p = (.error e, L)) ∧
    (p.manifest.validate = .ok () → L.findEntry p.manifest.id = none →
      (∀ d ∈ p.manifest.dependencies,
        ∃ entry, L.findEntry d.1 = some entry ∧
          entry.2.plugin.manifest.version.is_compatible_with d.2 = true) →
      L.register p = (.ok (),
        { plugins := L.plugins ++ [(p.manifest.id,
            { plugin := p, state := .registered, config := Json.obj [],
              load_order := L.load_counter + 1 })],
          load_counter := L.load_counter + 1 })) := by
  refine ⟨?_, ?_, ?_, ?_⟩
  · intro e he
    simp [PluginLoader.register, he]
  · intro hval entry hentry
    simp [PluginLoader.register, hval, hentry]
  · intro hval hfresh hbad
    obtain ⟨e, he⟩ := checkDeps_error L p.manifest.id p.manifest.dependencies hbad
    exact ⟨e, by simp [PluginLoader.register, hval, hfresh, he]⟩
  · intro hval hfresh hdeps
    exact register_success L p hval hfresh hdeps

/-- Witness for C4_registration_protocol: the empty loader accepts the
concrete test capability. -/
theorem C4_registration_protocol_witness :
    testPlugin.manifest.validate = .ok () ∧
    PluginLoader.new.findEntry testPlugin.manifest.id = none ∧
    (∀ d ∈ testPlugin.manifest.dependencies,
      ∃ entry, PluginLoader.new.findEntry d.1 = some entry ∧
        entry.2.plugin.manifest.version.is_compatible_with d.2 = true) ∧
    PluginLoader.new.register testPlugin = (.ok (),
      { plugins := [(testPlugin.manifest.id,
          { plugin := testPlugin, state := .registered,
            config := Json.obj [], load_order := 1 })],
        load_counter := 1 }) :=
  ⟨rfl, rfl, by simp [testPlugin, fsLikeManifest],
   (C4_registration_protocol PluginLoader.new testPlugin).2.2.2 rfl rfl
     (by simp [testPlugin, fsLikeManifest])⟩

/-- Claim C10: lifecycle operations on a plugin in a non-eligible state
return Ok and leave the whole registry (state, instance, load-order)
unchanged, invoking no hook; an unknown id yields PluginNotFound from each
operation. -/
theorem C10_lifecycle_noop (L : PluginLoader) (id : String) :
    (L.findEntry id = none →
      L.initPlugin id = (.error (.pluginNotFound id), L) ∧
      L.shutdownPlugin id = (.error (.pluginNotFound id), L) ∧
      L.enablePlugin id = (.error (.pluginNotFound id), L) ∧
      L.disablePlugin id = (.error (.pluginNotFound id), L)) ∧
    (∀ entry, L.findEntry id = some entry →
      (entry.2.state ≠ PluginState.registered →
        L.initPlugin id = (.ok (), L)) ∧
      (entry.2.state ≠ PluginState.active →
        entry.2.state ≠ PluginState.disabled →
        L.shutdownPlugin id = (.ok (), L)) ∧
      (entry.2.state ≠ PluginState.disabled →
        L.enablePlugin id = (.ok (), L)) ∧
      (entry.2.state ≠ PluginState.active →
        L.disablePlugin id = (.ok (), L))) := by
  constructor
  · intro hnone
    refine ⟨?_, ?_, ?_, ?_⟩ <;>
      simp [PluginLoader.initPlugin, PluginLoader.shutdownPlugin,
        PluginLoader.enablePlugin, PluginLoader.disablePlugin, hnone]
  · intro entry hentry
    refine ⟨?_, ?_, ?_, ?_⟩
    · intro hst
      simp [PluginLoader.initPlugin, hentry, hst]
    · intro hst1 hst2
      simp [PluginLoader.shutdownPlugin, hentry, hst1, hst2]
    · intro hst
      simp [PluginLoader.enablePlugin, hentry, hst]
    · intro hst
      simp [PluginLoader.disablePlugin, hentry, hst]

/-- Witness for C10_lifecycle_noop: a loader holding one Registered plugin
treats shutdown, enable and disable as no-ops on it, and reports
PluginNotFound for a ghost id. -/
theorem C10_lifecycle_noop_witness :
    (PluginLoader.new.findEntry "ghost" = none ∧
      PluginLoader.new.initPlugin "ghost" =
        (.error (.pluginNotFound "ghost"), PluginLoader.new)) ∧
    (regResult PluginLoader.new testPlugin).findEntry "moxie.filesystem" =
        some (regEntry PluginLoader.new testPlugin) ∧
    (regEntry PluginLoader.new testPlugin).2.state ≠ PluginState.active ∧
    (regResult PluginLoader.new testPlugin).disablePlugin "moxie.filesystem" =
      (.ok (), regResult PluginLoader.new testPlugin) :=
  ⟨⟨rfl, ((C10_lifecycle_noop PluginLoader.new "ghost").1 rfl).1⟩,
   rfl, by decide,
   (((C10_lifecycle_noop (regResult PluginLoader.new testPlugin)
       "moxie.filesystem").2 (regEntry PluginLoader.new testPlugin)
       rfl).2.2.2 (by decide))⟩

/-- The visible tool catalog equals the spec-side per-entry
characterization: an entry contributes its tools iff its state is
Active. -/
theorem allTools_eq_allToolsList (L : PluginLoader) :
    L.allTools = allToolsList L.plugins := by
  obtain ⟨ps, c⟩ := L
  simp only [PluginLoader.allTools, allToolsList]
  induction ps with
  | nil => rfl
  | cons q qs ih =>
    cases hq : (q.2.state == PluginState.active) with
    | true =>
      have hq' : q.2.state = PluginState.active := beq_iff_eq.mp hq
      simp [List.filter_cons, hq, hq', ih]
    | false =>
      have hq' : q.2.state ≠ PluginState.active := by
        intro h
        rw [h] at hq
        simp at hq
      simp [List.filter_cons, hq, hq', ih]

/-- The characterization splits over concatenation. -/
theorem allToolsList_append (ps qs : List (String × LoadedPlugin)) :
    allToolsList (ps ++ qs) = allToolsList ps ++ allToolsList qs := by
  simp only [allToolsList, List.foldr_append]
  induction ps with
  | nil => simp
  | cons x xs ih => simp [ih]

/-- Search skips a prefix in which nothing matches. -/
theorem find?_append_none {α : Type} (p : α → Bool) :
    ∀ l1 l2 : List α, l1.find? p = none → (l1 ++ l2).find? p = l2.find? p := by
  intro l1 l2
  induction l1 with
  | nil => intro _; rfl
  | cons x xs ih =>
    intro h
    cases hx : p x with
    | true => simp [List.find?_cons, hx] at h
    | false =>
      rw [List.cons_append]
      simp only [List.find?_cons, hx] at h ⊢
      exact ih h

/-- Updating an id that occurs nowhere leaves the entries untouched. -/
theorem map_frozen_of_find?_none (id : String)
    (f : LoadedPlugin → LoadedPlugin) :
    ∀ ps : List (String × LoadedPlugin),
      ps.find? (fun q => q.1 == id) = none →
      ps.map (fun q => if q.1 == id then (q.1, f q.2) else q) = ps := by
  intro ps
  induction ps with
  | nil => intro _; rfl
  | cons q qs ih =>
    intro h
    cases hq : (q.1 == id) with
    | true => simp [List.find?_cons, hq] at h
    | false =>
      simp only [List.find?_cons, hq] at h
      simp only [List.map_cons]
      rw [ih h]
      simp [hq]

/-- Lookup in a registry whose last entry carries a previously unseen id
finds that entry. -/
theorem findEntry_appended (ps : List (String × LoadedPlugin)) (id : String)
    (lp : LoadedPlugin) (c : Nat)
    (hfresh : ps.find? (fun q => q.1 == id) = none) :
    (PluginLoader.mk (ps ++ [(id, lp)]) c).findEntry id = some (id, lp) := by
  unfold PluginLoader.findEntry
  rw [find?_append_none _ _ _ hfresh]
  simp

/-- Updating a previously unseen id held by the last entry rewrites only
that entry. -/
theorem updateEntry_appended (ps : List (String × LoadedPlugin)) (id : String)
    (lp : LoadedPlugin) (f : LoadedPlugin → LoadedPlugin) (c : Nat)
    (hfresh : ps.find? (fun q => q.1 == id) = none) :
    (PluginLoader.mk (ps ++ [(id, lp)]) c).updateEntry id f =
      PluginLoader.mk (ps ++ [(id, f lp)]) c := by
  unfold PluginLoader.updateEntry
  simp only [List.map_append]
  rw [map_frozen_of_find?_none id f ps hfresh]
  simp

/-- Initializing the freshly appended Registered plugin succeeds when its
on_init hook does, and marks exactly it Active. -/
theorem initPlugin_fresh (L : PluginLoader) (p : Plugin)
    (hfresh : L.findEntry p.manifest.id = none)
    (hinit : p.onInit = .ok ()) :
    (regResult L p).initPlugin p.manifest.id =
      (.ok (), PluginLoader.mk (L.plugins ++ [(p.manifest.id,
          { plugin := p, state := .active, config := Json.obj [],
            load_order := L.load_counter + 1 })]) (L.load_counter + 1)) := by
  have hfind := findEntry_appended L.plugins p.manifest.id
    ({ plugin := p, state := .registered, config := Json.obj [],
       load_order := L.load_counter + 1 }) (L.load_counter + 1) hfresh
  have hupd := updateEntry_appended L.plugins p.manifest.id
    ({ plugin := p, state := .registered, config := Json.obj [],
       load_order := L.load_counter + 1 })
    (fun lp => { lp with state := .active }) (L.load_counter + 1) hfresh
  simp only [regResult, regEntry] at *
  simp [PluginLoader.initPlugin, hfind, hinit, hupd]

/-- Disabling the freshly appended Active plugin succeeds when its
on_disable hook does, and marks exactly it Disabled. -/
theorem disablePlugin_fresh (L : PluginLoader) (p : Plugin)
    (hfresh : L.findEntry p.manifest.id = none)
    (hdisable : p.onDisable = .ok ()) :
    (PluginLoader.mk (L.plugins ++ [(p.manifest.id,
        { plugin := p, state := .active, config := Json.obj [],
          load_order := L.load_counter + 1 })])
        (L.load_counter + 1)).disablePlugin p.manifest.id =
      (.ok (), PluginLoader.mk (L.plugins ++ [(p.manifest.id,
          { plugin := p, state := .disabled, config := Json.obj [],
            load_order := L.load_counter + 1 })]) (L.load_counter + 1)) := by
  have hfind := findEntry_appended L.plugins p.manifest.id
    ({ plugin := p, state := .active, config := Json.obj [],
       load_order := L.load_counter + 1 }) (L.load_counter + 1) hfresh
  have hupd := updateEntry_appended L.plugins p.manifest.id
    ({ plugin := p, state := .active, config := Json.obj [],
       load_order := L.load_counter + 1 })
    (fun lp => { lp with state := .disabled }) (L.load_counter + 1) hfresh
  simp [PluginLoader.disablePlugin, hfind, hdisable, hupd]

/-- Claim C5: a plugin's tools are in all_tools() iff its state is Active
(the per-entry characterization), and along the lifecycle of a fresh
capability: zero tools when freshly registered, exactly its declared tools
after successful initialization, zero again after disabling. -/
theorem C5_active_tools_visibility :
    (∀ L : PluginLoader, L.allTools = allToolsList L.plugins) ∧
    (∀ (L : PluginLoader) (p : Plugin),
      p.manifest.validate = .ok () →
      L.findEntry p.manifest.id = none →
      (∀ d ∈ p.manifest.dependencies,
        ∃ entry, L.findEntry d.1 = some entry ∧
          entry.2.plugin.manifest.version.is_compatible_with d.2 = true) →
      ((L.register p).2.allTools = L.allTools ∧
       (p.onInit = .ok () →
        (((L.register p).2.initPlugin p.manifest.id).2.allTools =
          L.allTools ++ p.tools ∧
         (p.onDisable = .ok () →
          ((((L.register p).2.initPlugin p.manifest.id).2.disablePlugin
             p.manifest.id).2.allTools = L.allTools)))))) := by
  refine ⟨allTools_eq_allToolsList, ?_⟩
  intro L p hval hfresh hdeps
  have hreg := register_success L p hval hfresh hdeps
  refine ⟨?_, ?_⟩
  · rw [hreg]
    rw [allTools_eq_allToolsList, allTools_eq_allToolsList]
    simp only [regResult]
    rw [allToolsList_append]
    simp [allToolsList, regEntry]
  · intro hinit
    have hinitres := initPlugin_fresh L p hfresh hinit
    constructor
    · rw [hreg, hinitres]
      rw [allTools_eq_allToolsList, allTools_eq_allToolsList]
      rw [allToolsList_append]
      simp [allToolsList]
    · intro hdisable
      have hdisres := disablePlugin_fresh L p hfresh hdisable
      rw [hreg, hinitres, hdisres]
      rw [allTools_eq_allToolsList, allTools_eq_allToolsList]
      rw [allToolsList_append]
      simp [allToolsList]

/-- Witness for C5_active_tools_visibility with the concrete test
capability on the empty registry. -/
theorem C5_active_tools_visibility_witness :
    testPlugin.manifest.validate = .ok () ∧
    PluginLoader.new.findEntry testPlugin.manifest.id = none ∧
    testPlugin.onInit = .ok () ∧ testPlugin.onDisable = .ok () ∧
    ((PluginLoader.new.register testPlugin).2.allTools =
        PluginLoader.new.allTools ∧
     ((PluginLoader.new.register
          testPlugin).2.initPlugin testPlugin.manifest.id).2.allTools =
        PluginLoader.new.allTools ++ testPlugin.tools ∧
     ((((PluginLoader.new.register
          testPlugin).2.initPlugin testPlugin.manifest.id).2.disablePlugin
          testPlugin.manifest.id).2.allTools = PluginLoader.new.allTools)) := by
  have h := (C5_active_tools_visibility.2 PluginLoader.new testPlugin rfl rfl
    (by simp [testPlugin, fsLikeManifest]))
  exact ⟨rfl, rfl, rfl, rfl,
    h.1, (h.2 rfl).1, (h.2 rfl).2 rfl⟩

/-- One loop iteration that detects tool calls dispatches them and
continues. -/
theorem chatGo_step_some (provider : Nat → String)
    (exec : String → Json → Except PluginError ToolResult)
    (fuel callIdx : Nat) (messages : List Message)
    (summaries : List ToolCallSummary) (calls : List ToolCall)
    (h : extractToolCalls (provider callIdx) = some calls) :
    chatGo provider exec (fuel + 1) callIdx messages summaries =
      chatGo provider exec fuel (callIdx + 1)
        (calls.foldl (dispatchToolCall exec) (messages, summaries)).1
        (calls.foldl (dispatchToolCall exec) (messages, summaries)).2 := by
  simp [chatGo, h]

/-- One loop iteration with no tool calls returns that response. -/
theorem chatGo_step_none (provider : Nat → String)
    (exec : String → Json → Except PluginError ToolResult)
    (fuel callIdx : Nat) (messages : List Message)
    (summaries : List ToolCallSummary)
    (h : extractToolCalls (provider callIdx) = none) :
    chatGo provider exec (fuel + 1) callIdx messages summaries =
      (.ok (provider callIdx, summaries), callIdx + 1) := by
  simp [chatGo, h]

/-- Dispatching a batch of calls through an always-failing executor records
one success=false summary per call, in order. -/
theorem foldl_dispatch_all_error
    (exec : String → Json → Except PluginError ToolResult)
    (errF : String → Json → PluginError)
    (hexec : ∀ t a, exec t a = .error (errF t a)) :
    ∀ (calls : List ToolCall) (msgs : List Message)
      (sums : List ToolCallSummary),
      (calls.foldl (dispatchToolCall exec) (msgs, sums)).2 =
        sums ++ calls.map (fun c => ToolCallSummary.mk c.name false) := by
  intro calls
  induction calls with
  | nil => intro msgs sums; simp
  | cons c cs ih =>
    intro msgs sums
    rw [List.foldl_cons]
    have hstep : dispatchToolCall exec (msgs, sums) c =
        (msgs ++
          [⟨Role.assistant, "Tool call: " ++ c.name ++
             " with arguments: " ++ c.arguments.render⟩,
           ⟨Role.system, "Tool result for " ++ c.name ++ ": " ++
             (ToolResult.mkFailure (errF c.name c.arguments).message).toJson.render⟩],
         sums ++ [⟨c.name, false⟩]) := by
      simp [dispatchToolCall, hexec c.name c.arguments, ToolResult.mkFailure]
    rw [hstep, ih]
    simp

/-- Claim C7: a dispatch error (tool-not-found included) becomes a failed
ToolResult appended to the working messages as a system message, with a
success=false summary, and the turn continues: with every dispatch failing,
a turn whose second response has no tool calls still completes normally,
reporting success=false for every call of the first response. -/
theorem C7_dispatch_error_recovery :
    (∀ (exec : String → Json → Except PluginError ToolResult)
       (msgs : List Message) (sums : List ToolCallSummary)
       (call : ToolCall) (e : PluginError),
      exec call.name call.arguments = .error e →
      dispatchToolCall exec (msgs, sums) call =
        (msgs ++
          [⟨Role.assistant, "Tool call: " ++ call.name ++
             " with arguments: " ++ call.arguments.render⟩,
           ⟨Role.system, "Tool result for " ++ call.name ++ ": " ++
             (ToolResult.mkFailure e.message).toJson.render⟩],
         sums ++ [⟨call.name, false⟩])) ∧
    (∀ (provider : Nat → String)
       (exec : String → Json → Except PluginError ToolResult)
       (errF : String → Json → PluginError)
       (history : List Message) (sys user cid : String)
       (calls : List ToolCall),
      (∀ t a, exec t a = .error (errF t a)) →
      extractToolCalls (provider 0) = some calls →
      extractToolCalls (provider 1) = none →
      (chat provider exec history sys user cid).result =
        .ok ⟨provider 1, cid,
          calls.map (fun c => ToolCallSummary.mk c.name false)⟩) := by
  constructor
  · intro exec msgs sums call e he
    simp [dispatchToolCall, he, ToolResult.mkFailure]
  · intro provider exec errF history sys user cid calls hexec h0 h1
    simp only [chat]
    rw [show MAX_TOOL_ITERATIONS = 9 + 1 from rfl]
    rw [chatGo_step_some provider exec 9 0 _ _ calls h0]
    rw [show (9 : Nat) = 8 + 1 from rfl]
    rw [chatGo_step_none provider exec 8 1 _ _ h1]
    rw [foldl_dispatch_all_error exec errF hexec]
    simp

/-- Witness for C7_dispatch_error_recovery: every dispatch fails with
ToolNotFound, the second response is plain text, and the turn still
completes with a success=false summary. -/
theorem C7_dispatch_error_recovery_witness :
    (notFoundExec goodToolCall.name goodToolCall.arguments =
      .error (.toolNotFound goodToolCall.name) ∧
     dispatchToolCall notFoundExec ([], []) goodToolCall =
       ([⟨Role.assistant, "Tool call: " ++ goodToolCall.name ++
           " with arguments: " ++ goodToolCall.arguments.render⟩,
         ⟨Role.system, "Tool result for " ++ goodToolCall.name ++ ": " ++
           (ToolResult.mkFailure
             (PluginError.toolNotFound goodToolCall.name).message).toJson.render⟩],
        [⟨goodToolCall.name, false⟩])) ∧
    ((∀ t a, notFoundExec t a = .error (.toolNotFound t)) ∧
     extractToolCalls (twoRoundProvider 0) = some [goodToolCall] ∧
     extractToolCalls (twoRoundProvider 1) = none ∧
     (chat twoRoundProvider notFoundExec [] "sys" "hi" "conv").result =
       .ok ⟨twoRoundProvider 1, "conv", [⟨goodToolCall.name, false⟩]⟩) := by
  refine ⟨⟨rfl, ?_⟩, fun t a => rfl, rfl, rfl, ?_⟩
  · exact C7_dispatch_error_recovery.1 notFoundExec [] [] goodToolCall
      (.toolNotFound goodToolCall.name) rfl
  · exact C7_dispatch_error_recovery.2 twoRoundProvider notFoundExec
      (fun t _ => .toolNotFound t) [] "sys" "hi" "conv" [goodToolCall]
      (fun t a => rfl) rfl rfl

/-- Claim C8, counterexample: with an Active plugin whose after_execute
hook fails, the registry's execute returns that error, not the ToolResult
the plugin's own execute produced. -/
theorem C8_counterexample :
    afterFailLoader.executeTool "t" Json.null =
      .error (.executionFailed "after hook failed") ∧
    afterFailPlugin.execute "t" Json.null =
      .ok (ToolResult.mkSuccess (Json.str "done")) :=
  ⟨rfl, rfl⟩

/-- Claim C8, amended: when the selected Active plugin's before_execute and
execute succeed, the hook cannot alter the ToolResult — the registry
returns exactly the plugin's result if after_execute succeeds — but if
after_execute fails, the registry's execute propagates that error instead
of returning the ToolResult. -/
theorem C8_after_execute_observational (L : PluginLoader) (tool : String)
    (params : Json) (entry : String × LoadedPlugin)
    (hsel : L.plugins.find? (fun q =>
      q.2.state == PluginState.active && q.2.plugin.hasTool tool) =
      some entry)
    (hbefore : entry.2.plugin.beforeExecute tool params = .ok ())
    (r : ToolResult)
    (hexec : entry.2.plugin.execute tool params = .ok r) :
    (entry.2.plugin.afterExecute tool r = .ok () →
      L.executeTool tool params = .ok r) ∧
    (∀ e, entry.2.plugin.afterExecute tool r = .error e →
      L.executeTool tool params = .error e) := by
  constructor
  · intro hafter
    simp [PluginLoader.executeTool, hsel, hbefore, hexec, hafter]
  · intro e hafter
    simp [PluginLoader.executeTool, hsel, hbefore, hexec, hafter]

/-- Witness for C8_after_execute_observational on a registry whose hooks
all succeed. -/
theorem C8_after_execute_observational_witness :
    hookOkLoader.plugins.find? (fun q =>
      q.2.state == PluginState.active && q.2.plugin.hasTool "read_file") =
      some ("moxie.filesystem", ⟨testPlugin, .active, Json.obj [], 1⟩) ∧
    testPlugin.beforeExecute "read_file" Json.null = .ok () ∧
    testPlugin.execute "read_file" Json.null =
      .ok (ToolResult.mkSuccess (Json.str "ok")) ∧
    testPlugin.afterExecute "read_file"
      (ToolResult.mkSuccess (Json.str "ok")) = .ok () ∧
    hookOkLoader.executeTool "read_file" Json.null =
      .ok (ToolResult.mkSuccess (Json.str "ok")) :=
  ⟨rfl, rfl, rfl, rfl,
   (C8_after_execute_observational hookOkLoader "read_file" Json.null
     ("moxie.filesystem", ⟨testPlugin, .active, Json.obj [], 1⟩) rfl rfl
     (ToolResult.mkSuccess (Json.str "ok")) rfl).1 rfl⟩

/-- A pattern that prefixes the text is found at index zero. -/
theorem findSub_isSome_of_isPrefixOf (pat : List Char) :
    ∀ s, pat.isPrefixOf s = true → (findSub pat s).isSome = true := by
  intro s h
  cases s with
  | nil =>
    cases pat with
    | nil => rfl
    | cons a as => simp [List.isPrefixOf] at h
  | cons c rest => simp [findSub, h]

/-- A string contains every prefix of itself. -/
theorem containsStr_prefix (needle rest : String) :
    containsStr (needle ++ rest) needle = true := by
  unfold containsStr
  apply findSub_isSome_of_isPrefixOf
  have hdata : (needle ++ rest).data = needle.data ++ rest.data := rfl
  rw [hdata]
  exact List.isPrefixOf_iff_prefix.mpr (List.prefix_append _ _)

/-- Claim C9: with an empty allow-list no path is allowed; a disallowed
read returns a failed ToolResult whose error text contains "Access
denied"; and with writes disabled, write_file fails for every path and
performs no filesystem write. -/
theorem C9_filesystem_boundaries :
    (∀ (cfg : FilesystemConfig) (env : FsEnv) (path : List String),
      cfg.allowed_paths = [] → isPathAllowed cfg env path = false) ∧
    (∀ (cfg : FilesystemConfig) (env : FsEnv) (path : List String),
      isPathAllowed cfg env path = false →
      fsReadFile cfg env path =
        .ok (ToolResult.mkFailure ("Access denied: path '" ++
          renderPath path ++ "' is not in allowed paths")) ∧
      (ToolResult.mkFailure ("Access denied: path '" ++ renderPath path ++
        "' is not in allowed paths")).success = false ∧
      containsStr ("Access denied: path '" ++ renderPath path ++
        "' is not in allowed paths") "Access denied" = true) ∧
    (∀ (cfg : FilesystemConfig) (env : FsEnv) (path : List String)
       (content : String),
      cfg.allow_write = false →
      fsWriteFile cfg env path content =
        (.ok (ToolResult.mkFailure
          "Write operations are disabled for this plugin"), []) ∧
      (ToolResult.mkFailure
        "Write operations are disabled for this plugin").success = false) := by
  refine ⟨?_, ?_, ?_⟩
  · intro cfg env path hempty
    simp [isPathAllowed, hempty]
  · intro cfg env path hdenied
    refine ⟨by simp [fsReadFile, hdenied], rfl, ?_⟩
    exact containsStr_prefix "Access denied"
      (": path '" ++ renderPath path ++ "' is not in allowed paths")
  · intro cfg env path content hro
    exact ⟨by simp [fsWriteFile, hro], rfl⟩

/-- Witness for C9_filesystem_boundaries on the locked-down concrete
configuration. -/
theorem C9_filesystem_boundaries_witness :
    (lockedFsConfig.allowed_paths = [] ∧
     isPathAllowed lockedFsConfig emptyFsEnv ["etc", "passwd"] = false) ∧
    (fsReadFile lockedFsConfig emptyFsEnv ["etc", "passwd"] =
      .ok (ToolResult.mkFailure ("Access denied: path '" ++
        renderPath ["etc", "passwd"] ++ "' is not in allowed paths")) ∧
     containsStr ("Access denied: path '" ++ renderPath ["etc", "passwd"] ++
       "' is not in allowed paths") "Access denied" = true) ∧
    (lockedFsConfig.allow_write = false ∧
     fsWriteFile lockedFsConfig emptyFsEnv ["etc", "passwd"] "boom" =
       (.ok (ToolResult.mkFailure
         "Write operations are disabled for this plugin"), [])) := by
  have h := C9_filesystem_boundaries
  refine ⟨⟨rfl, h.1 lockedFsConfig emptyFsEnv ["etc", "passwd"] rfl⟩, ?_, ?_⟩
  · have h2 := h.2.1 lockedFsConfig emptyFsEnv ["etc", "passwd"]
      (h.1 lockedFsConfig emptyFsEnv ["etc", "passwd"] rfl)
    exact ⟨h2.1, h2.2.2⟩
  · exact ⟨rfl, (h.2.2 lockedFsConfig emptyFsEnv ["etc", "passwd"]
      "boom" rfl).1⟩

end Moxie
